import Mathlib

/-!
Verification of the browser-history normalization engine (`app.py`):
schema classification (`detect_browser_type`), the three epoch converters
(`chrome_to_timestamp`, `webkit_to_timestamp`, `firefox_to_timestamp`) and
the four record extractors (`get_history_data`, `get_downloads_data`,
`get_visits_data`, `get_search_terms_data`).

Modelling conventions:
* An artifact is either `corrupt` (opening it or listing its tables fails)
  or a readable SQLite database, modelled as typed row lists for exactly the
  tables and columns the extraction queries name, plus the table-name
  inventory used by classification.
* Python exceptions are modelled with `Option`: a converter or query that
  raises returns `none`; each extraction operation wraps its core in the
  `try/except` of the source, turning `none` into `[]`.
* Machine timestamps are `Int`; Python `datetime` arithmetic raises
  (`OverflowError`) outside the representable range
  0001-01-01T00:00:00 .. 9999-12-31T23:59:59.999999, which the converters
  model with an explicit range check before rendering.
* `datetime.fromtimestamp(t / 1000000)` divides floats; the model uses the
  exact integer microsecond count, which agrees on the inputs the claims
  concern (zero and out-of-range values).
-/

/-! ### Gregorian calendar arithmetic (proleptic, as Python's `datetime`) -/

/-- Days from 0000-03-01 to year `y`, month `m`, day `d` (valid civil date,
`y ≥ 1`). Standard era-based civil-date arithmetic. -/
def daysFromCivil (y m d : Nat) : Nat :=
  let y' := y - (if m ≤ 2 then 1 else 0)
  let era := y' / 400
  let yoe := y' % 400
  let mp := if m ≤ 2 then m + 9 else m - 3
  let doy := (153 * mp + 2) / 5 + d - 1
  let doe := yoe * 365 + yoe / 4 - yoe / 100 + doy
  era * 146097 + doe

/-- Day count of 0001-01-01 in the `daysFromCivil` scale. -/
def year1Offset : Nat := daysFromCivil 1 1 1

/-- Civil date (year, month, day) of day `z`, counting 0001-01-01 as day 0. -/
def civilFromDays (z : Nat) : Nat × Nat × Nat :=
  let z' := z + year1Offset
  let era := z' / 146097
  let doe := z' % 146097
  let yoe := (doe - doe / 1460 + doe / 36524 - doe / 146096) / 365
  let y := yoe + era * 400
  let doy := doe - (365 * yoe + yoe / 4 - yoe / 100)
  let mp := (5 * doy + 2) / 153
  let d := doy - (153 * mp + 2) / 5 + 1
  let m := if mp < 10 then mp + 3 else mp - 9
  (if m ≤ 2 then y + 1 else y, m, d)

def usPerDay : Nat := 86400000000

/-- Microseconds from 0001-01-01T00:00:00 to midnight of a civil date. -/
def usSinceYear1 (y m d : Nat) : Nat := (daysFromCivil y m d - year1Offset) * usPerDay

/-- `datetime(1601, 1, 1)` of the chromium epoch, in the year-1 scale. -/
def chromeEpochUs : Int := (usSinceYear1 1601 1 1 : Nat)

/-- `datetime(2001, 1, 1)` of the webkit epoch, in the year-1 scale. -/
def webkitEpochUs : Int := (usSinceYear1 2001 1 1 : Nat)

/-- `datetime(1970, 1, 1)`, the Unix epoch used by gecko, in the year-1 scale. -/
def unixEpochUs : Int := (usSinceYear1 1970 1 1 : Nat)

/-- `datetime.max`: 9999-12-31T23:59:59.999999 in the year-1 scale; beyond it
(or below 0) Python's datetime arithmetic raises. -/
def maxDatetimeUs : Int := (usSinceYear1 9999 12 31 : Nat) + 86399999999

def pad2 (n : Nat) : String := if n < 10 then "0" ++ toString n else toString n

def pad4 (n : Nat) : String :=
  if n < 10 then "000" ++ toString n
  else if n < 100 then "00" ++ toString n
  else if n < 1000 then "0" ++ toString n
  else toString n

/-- Render a year-1-scale microsecond instant as
`strftime('%Y-%m-%d %H:%M:%S UTC')` does (microseconds dropped). -/
def formatUtc (us : Nat) : String :=
  let day := us / usPerDay
  let secOfDay := us % usPerDay / 1000000
  let ymd := civilFromDays day
  pad4 ymd.1 ++ "-" ++ pad2 ymd.2.1 ++ "-" ++ pad2 ymd.2.2 ++ " " ++
    pad2 (secOfDay / 3600) ++ ":" ++ pad2 (secOfDay % 3600 / 60) ++ ":" ++
    pad2 (secOfDay % 60) ++ " UTC"

/-! ### Timestamp converters (`chrome_to_timestamp` etc.)

Each returns `none` where the Python code raises (timestamp out of the
representable `datetime` range). -/

def chrome_to_timestamp (chrome_time : Int) : Option String :=
  if chrome_time = 0 then some "Never"
  else
    let us := chromeEpochUs + chrome_time
    if 0 ≤ us ∧ us ≤ maxDatetimeUs then some (formatUtc us.toNat) else none

def webkit_to_timestamp (webkit_time : Int) : Option String :=
  if webkit_time = 0 then some "Never"
  else
    let us := webkitEpochUs + webkit_time * 1000000
    if 0 ≤ us ∧ us ≤ maxDatetimeUs then some (formatUtc us.toNat) else none

def firefox_to_timestamp (firefox_time : Int) : Option String :=
  if firefox_time = 0 then some "Never"
  else
    let us := unixEpochUs + firefox_time
    if 0 ≤ us ∧ us ≤ maxDatetimeUs then some (formatUtc us.toNat) else none

/-! ### The artifact model

Row structures carry exactly the columns the source queries read, typed per
the browser schemas: columns the schemas declare `NOT NULL` are plain
`Int`/`String`; the rest are `Option`, with the source's `x or ''` /
`x or 0` null-defaulting modelled by `Option.getD`. -/

/-- Row of chromium `urls` as read by the history query. -/
structure UrlRow where
  id : Int
  url : Option String
  title : Option String
  visit_count : Option Int
  typed_count : Option Int
  hidden : Int
  last_visit_time : Int
  deriving DecidableEq, Repr

/-- Row of chromium `visits` as read by the visits query. -/
structure VisitRow where
  id : Int
  url : Int
  visit_time : Int
  from_visit : Option Int
  transition : Int
  deriving DecidableEq, Repr

/-- Row of chromium `downloads` as read by the downloads query. -/
structure DownloadRow where
  start_time : Int
  end_time : Int
  target_path : Option String
  received_bytes : Option Int
  total_bytes : Option Int
  tab_url : Option String
  tab_referrer_url : Option String
  deriving DecidableEq, Repr

/-- Row of chromium `keyword_search_terms` as read by the search-terms query. -/
structure KeywordSearchRow where
  last_visit_time : Int
  url : Option String
  term : Option String
  url_id : Int
  deriving DecidableEq, Repr

/-- Row of gecko `moz_places` as read by the history/visits queries. -/
structure MozPlaceRow where
  id : Int
  url : Option String
  title : Option String
  visit_count : Option Int
  typed : Option Int
  hidden : Int
  last_visit_date : Option Int
  deriving DecidableEq, Repr

/-- Row of gecko `moz_historyvisits` as read by the visits query. -/
structure MozVisitRow where
  id : Int
  place_id : Int
  from_visit : Option Int
  visit_date : Int
  visit_type : Option Int
  deriving DecidableEq, Repr

/-- Row of gecko `moz_anno_attributes` as read by the downloads query. -/
structure AnnoAttrRow where
  id : Int
  name : String
  deriving DecidableEq, Repr

/-- Row of gecko `moz_annos` as read by the downloads query. -/
structure AnnoRow where
  anno_attribute_id : Int
  place_id : Int
  content : Option String
  dateAdded : Int
  lastModified : Int
  deriving DecidableEq, Repr

/-- Row of webkit `history_items` as read by the history query. -/
structure HistoryItemRow where
  visit_time : Int
  url : Option String
  domain_expansion : Option String
  visit_count : Option Int
  deriving DecidableEq, Repr

/-- A readable SQLite database: table inventory plus typed row stores. -/
structure DB where
  tables : List String
  urls : List UrlRow
  visits : List VisitRow
  downloads : List DownloadRow
  keyword_search_terms : List KeywordSearchRow
  moz_places : List MozPlaceRow
  moz_historyvisits : List MozVisitRow
  moz_anno_attributes : List AnnoAttrRow
  moz_annos : List AnnoRow
  history_items : List HistoryItemRow
  deriving DecidableEq, Repr

/-- An artifact path: either a readable database or a file on which opening
the connection / listing tables / querying raises. -/
inductive Artifact where
  | corrupt : Artifact
  | ok : DB → Artifact
  deriving DecidableEq, Repr

/-! ### Output record shapes (the Python dicts) -/

/-- A dynamically-typed dict value, as Python records carry them. -/
inductive JValue where
  | jstr : String → JValue
  | jbool : Bool → JValue
  | jint : Int → JValue
  deriving DecidableEq, Repr

/-- `true` exactly on boolean dict values. -/
def JValue.isBool : JValue → Bool
  | .jbool _ => true
  | _ => false

structure HistoryRecord where
  last_visit_time : String
  url : String
  title : String
  visit_count : Int
  typed_count : Int
  is_hidden : JValue
  deriving DecidableEq, Repr

structure DownloadRecord where
  start_time : String
  end_time : String
  filename : String
  path : String
  received_bytes : Int
  total_bytes : Int
  source_url : String
  referrer_url : String
  deriving DecidableEq, Repr

structure VisitRecord where
  visit_time : String
  url : String
  title : String
  transition : String
  referrer_url : String
  referrer_title : String
  segment_name : String
  deriving DecidableEq, Repr

structure SearchTermRecord where
  last_visit_time : String
  search_url : String
  term : String
  page_title : String
  visit_count : Int
  deriving DecidableEq, Repr

/-! ### Classification (`detect_browser_type`) -/

def detect_browser_type : Artifact → String
  | .corrupt => "unknown"
  | .ok db =>
    if "urls" ∈ db.tables ∧ "visits" ∈ db.tables ∧ "downloads" ∈ db.tables then
      "chrome"
    else if "moz_places" ∈ db.tables ∧ "moz_historyvisits" ∈ db.tables then
      "firefox"
    else if "history_items" ∈ db.tables ∧ "history_visits" ∈ db.tables then
      "safari"
    else
      "unknown"

/-! ### Shared helpers -/

/-- All-or-nothing row mapping: the Python loops append mapped rows and any
raise inside the loop discards the whole result (caught by the operation's
`except`). -/
def optionMapM (f : α → Option β) : List α → Option (List β)
  | [] => some []
  | a :: l => do
    let b ← f a
    let bs ← optionMapM f l
    pure (b :: bs)

/-- `ORDER BY key DESC`: stable descending sort by an integer key. -/
def sortByDesc (key : α → Int) (l : List α) : List α :=
  List.insertionSort (fun a b => key b ≤ key a) l

/-- `os.path.basename`: the component after the last `/`. -/
def basename (path : String) : String :=
  ((path.splitOn "/").getLast?).getD ""

/-- Python truthiness of an integer column value. -/
def intTruthy (n : Int) : Bool := n ≠ 0

/-! ### `get_history_data` -/

/-- Chromium history query: `SELECT ... FROM urls ORDER BY last_visit_time DESC`. -/
def chromeHistoryRows (db : DB) : List UrlRow :=
  sortByDesc (·.last_visit_time) db.urls

def mkChromeHistory (r : UrlRow) : Option HistoryRecord := do
  let ts ← chrome_to_timestamp r.last_visit_time
  pure { last_visit_time := ts
         url := r.url.getD ""
         title := r.title.getD ""
         visit_count := r.visit_count.getD 0
         typed_count := r.typed_count.getD 0
         is_hidden := .jstr (if intTruthy r.hidden then "Yes" else "No") }

def chromeHistoryCore (db : DB) : Option (List HistoryRecord) :=
  if "urls" ∈ db.tables then
    optionMapM mkChromeHistory (chromeHistoryRows db)
  else none

/-- Gecko history query: `... FROM moz_places WHERE last_visit_date IS NOT NULL
ORDER BY last_visit_date DESC`. -/
def firefoxHistoryRows (db : DB) : List MozPlaceRow :=
  sortByDesc (·.last_visit_date.getD 0) (db.moz_places.filter (·.last_visit_date.isSome))

def mkFirefoxHistory (r : MozPlaceRow) : Option HistoryRecord := do
  let ts ← firefox_to_timestamp (r.last_visit_date.getD 0)
  pure { last_visit_time := ts
         url := r.url.getD ""
         title := r.title.getD ""
         visit_count := r.visit_count.getD 0
         typed_count := r.typed.getD 0
         is_hidden := .jstr (if intTruthy r.hidden then "Yes" else "No") }

def firefoxHistoryCore (db : DB) : Option (List HistoryRecord) :=
  if "moz_places" ∈ db.tables then
    optionMapM mkFirefoxHistory (firefoxHistoryRows db)
  else none

/-- WebKit history query: `... FROM history_items ORDER BY visit_time DESC`. -/
def safariHistoryRows (db : DB) : List HistoryItemRow :=
  sortByDesc (·.visit_time) db.history_items

def mkSafariHistory (r : HistoryItemRow) : Option HistoryRecord := do
  let ts ← webkit_to_timestamp r.visit_time
  pure { last_visit_time := ts
         url := r.url.getD ""
         title := r.domain_expansion.getD ""
         visit_count := r.visit_count.getD 0
         typed_count := 0
         is_hidden := .jstr "No" }

def safariHistoryCore (db : DB) : Option (List HistoryRecord) :=
  if "history_items" ∈ db.tables then
    optionMapM mkSafariHistory (safariHistoryRows db)
  else none

def get_history_data (a : Artifact) : List HistoryRecord :=
  match a with
  | .corrupt => []
  | .ok db =>
    let bt := detect_browser_type (.ok db)
    (if bt = "chrome" then chromeHistoryCore db
     else if bt = "firefox" then firefoxHistoryCore db
     else if bt = "safari" then safariHistoryCore db
     -- no branch binds `data`; `return data` raises NameError, caught below
     else none).getD []

/-! ### `get_downloads_data` -/

def mkChromeDownload (r : DownloadRow) : Option DownloadRecord := do
  let st ← chrome_to_timestamp r.start_time
  let et ← chrome_to_timestamp r.end_time
  let path := r.target_path.getD ""
  pure { start_time := st
         end_time := et
         filename := if path = "" then "" else basename path
         path := path
         received_bytes := r.received_bytes.getD 0
         total_bytes := r.total_bytes.getD 0
         source_url := r.tab_url.getD ""
         referrer_url := r.tab_referrer_url.getD "" }

def chromeDownloadsCore (db : DB) : Option (List DownloadRecord) :=
  if "downloads" ∈ db.tables then
    optionMapM mkChromeDownload (sortByDesc (·.start_time) db.downloads)
  else none

/-- Gecko downloads query join:
`moz_anno_attributes aa JOIN moz_annos a ON aa.id = a.anno_attribute_id
JOIN moz_places p ON a.place_id = p.id
WHERE aa.name = 'downloads/destinationFileURI'` (place ids assumed unique). -/
def firefoxDownloadsJoined (db : DB) : List (AnnoRow × MozPlaceRow) :=
  (db.moz_anno_attributes.filter fun aa =>
      aa.name == "downloads/destinationFileURI").flatMap fun aa =>
    (db.moz_annos.filter fun a => a.anno_attribute_id == aa.id).filterMap fun a =>
      (db.moz_places.find? fun p => p.id == a.place_id).map fun p => (a, p)

def mkFirefoxDownload (p : AnnoRow × MozPlaceRow) : Option DownloadRecord := do
  let st ← firefox_to_timestamp p.1.dateAdded
  let et ← firefox_to_timestamp p.1.lastModified
  pure { start_time := st
         end_time := et
         filename := p.2.title.getD ""
         path := p.1.content.getD ""
         received_bytes := 0
         total_bytes := 0
         source_url := ""
         referrer_url := "" }

def firefoxDownloadsCore (db : DB) : Option (List DownloadRecord) :=
  if "moz_anno_attributes" ∈ db.tables ∧ "moz_annos" ∈ db.tables ∧
      "moz_places" ∈ db.tables then
    optionMapM mkFirefoxDownload (sortByDesc (·.1.dateAdded) (firefoxDownloadsJoined db))
  else none

def get_downloads_data (a : Artifact) : List DownloadRecord :=
  match a with
  | .corrupt => []
  | .ok db =>
    let bt := detect_browser_type (.ok db)
    (if bt = "chrome" then chromeDownloadsCore db
     else if bt = "firefox" then firefoxDownloadsCore db
     else some []).getD []  -- `else: data = []` for safari and unknown

/-! ### `get_visits_data` -/

/-- The chromium `transition_types` dict lookup with default `'Unknown'`. -/
def transition_types (code : Int) : String :=
  if code = 0 then "Link"
  else if code = 1 then "Typed"
  else if code = 2 then "Auto Bookmark"
  else if code = 3 then "Auto Subframe"
  else if code = 4 then "Manual Subframe"
  else if code = 5 then "Generated"
  else if code = 6 then "Start Page"
  else if code = 7 then "Form Submit"
  else if code = 8 then "Reload"
  else "Unknown"

/-- `JOIN urls u ON v.url = u.id` (url ids assumed unique). -/
def chromeVisitsJoined (db : DB) : List (VisitRow × UrlRow) :=
  db.visits.filterMap fun v =>
    (db.urls.find? fun u => u.id == v.url).map fun u => (v, u)

/-- `LEFT JOIN visits ref_v ON v.from_visit = ref_v.id
LEFT JOIN urls ref_u ON ref_v.url = ref_u.id`: the referring visit's URL row,
if the pointer is present and does not dangle. -/
def chromeVisitRef (db : DB) (v : VisitRow) : Option UrlRow :=
  v.from_visit.bind fun fv =>
    (db.visits.find? fun rv => rv.id == fv).bind fun rv =>
      db.urls.find? fun u => u.id == rv.url

/-- `ORDER BY v.visit_time DESC LIMIT 1000`, applied in the query. -/
def chromeVisitsSelected (db : DB) : List (VisitRow × UrlRow) :=
  (sortByDesc (fun p => p.1.visit_time) (chromeVisitsJoined db)).take 1000

def mkChromeVisit (db : DB) (p : VisitRow × UrlRow) : Option VisitRecord := do
  let ts ← chrome_to_timestamp p.1.visit_time
  let refU := chromeVisitRef db p.1
  pure { visit_time := ts
         url := p.2.url.getD ""
         title := p.2.title.getD ""
         transition := transition_types p.1.transition
         referrer_url := (refU.bind (·.url)).getD ""
         referrer_title := (refU.bind (·.title)).getD ""
         segment_name := "Chrome History" }

def chromeVisitsCore (db : DB) : Option (List VisitRecord) :=
  if "visits" ∈ db.tables ∧ "urls" ∈ db.tables then
    optionMapM (mkChromeVisit db) (chromeVisitsSelected db)
  else none

/-- Gecko transition label: `f'Type {row[3]}' if row[3] else 'Unknown'` —
Python truthiness, so a NULL or zero native type gives `'Unknown'`. -/
def firefoxTransitionLabel (vt : Option Int) : String :=
  match vt with
  | some n => if intTruthy n then "Type " ++ toString n else "Unknown"
  | none => "Unknown"

/-- `JOIN moz_places p ON hv.place_id = p.id` (place ids assumed unique). -/
def firefoxVisitsJoined (db : DB) : List (MozVisitRow × MozPlaceRow) :=
  db.moz_historyvisits.filterMap fun hv =>
    (db.moz_places.find? fun p => p.id == hv.place_id).map fun p => (hv, p)

/-- `LEFT JOIN moz_historyvisits ref_hv ON hv.from_visit = ref_hv.id
LEFT JOIN moz_places ref_p ON ref_hv.place_id = ref_p.id`. -/
def firefoxVisitRef (db : DB) (hv : MozVisitRow) : Option MozPlaceRow :=
  hv.from_visit.bind fun fv =>
    (db.moz_historyvisits.find? fun rv => rv.id == fv).bind fun rv =>
      db.moz_places.find? fun p => p.id == rv.place_id

/-- `ORDER BY hv.visit_date DESC LIMIT 1000`, applied in the query. -/
def firefoxVisitsSelected (db : DB) : List (MozVisitRow × MozPlaceRow) :=
  (sortByDesc (fun p => p.1.visit_date) (firefoxVisitsJoined db)).take 1000

def mkFirefoxVisit (db : DB) (p : MozVisitRow × MozPlaceRow) : Option VisitRecord := do
  let ts ← firefox_to_timestamp p.1.visit_date
  let refP := firefoxVisitRef db p.1
  pure { visit_time := ts
         url := p.2.url.getD ""
         title := p.2.title.getD ""
         transition := firefoxTransitionLabel p.1.visit_type
         referrer_url := (refP.bind (·.url)).getD ""
         referrer_title := (refP.bind (·.title)).getD ""
         segment_name := "Firefox History" }

def firefoxVisitsCore (db : DB) : Option (List VisitRecord) :=
  if "moz_historyvisits" ∈ db.tables ∧ "moz_places" ∈ db.tables then
    optionMapM (mkFirefoxVisit db) (firefoxVisitsSelected db)
  else none

def get_visits_data (a : Artifact) : List VisitRecord :=
  match a with
  | .corrupt => []
  | .ok db =>
    let bt := detect_browser_type (.ok db)
    (if bt = "chrome" then chromeVisitsCore db
     else if bt = "firefox" then firefoxVisitsCore db
     else some []).getD []  -- `else: data = []` for safari and unknown

/-! ### `get_search_terms_data` -/

/-- `JOIN urls u ON kt.url_id = u.id` (url ids assumed unique). -/
def chromeSearchJoined (db : DB) : List (KeywordSearchRow × UrlRow) :=
  db.keyword_search_terms.filterMap fun kt =>
    (db.urls.find? fun u => u.id == kt.url_id).map fun u => (kt, u)

def mkChromeSearch (p : KeywordSearchRow × UrlRow) : Option SearchTermRecord := do
  let ts ← chrome_to_timestamp p.1.last_visit_time
  pure { last_visit_time := ts
         search_url := p.1.url.getD ""
         term := p.1.term.getD ""
         page_title := p.2.title.getD ""
         visit_count := p.2.visit_count.getD 0 }

def chromeSearchCore (db : DB) : Option (List SearchTermRecord) :=
  if "keyword_search_terms" ∈ db.tables ∧ "urls" ∈ db.tables then
    optionMapM mkChromeSearch (sortByDesc (·.1.last_visit_time) (chromeSearchJoined db))
  else none

def get_search_terms_data (a : Artifact) : List SearchTermRecord :=
  match a with
  | .corrupt => []
  | .ok db =>
    let bt := detect_browser_type (.ok db)
    (if bt = "chrome" then chromeSearchCore db
     else some []).getD []  -- `else: data = []` for firefox, safari, unknown

/-! ### Spec-side classifier (for the refinement claim)

A second definition following the specification's words (§4.1): family
names with their code tags, classified by fixed-set membership tests in
precedence order. -/

inductive BrowserFamily where
  | chromium
  | gecko
  | webkit
  | unknown
  deriving DecidableEq, Repr

/-- The code tag the spec associates to each family. -/
def BrowserFamily.codeTag : BrowserFamily → String
  | .chromium => "chrome"
  | .gecko => "firefox"
  | .webkit => "safari"
  | .unknown => "unknown"

/-- Spec §4.1: precedence-ordered membership classification. -/
def specClassify (tables : List String) : BrowserFamily :=
  if "urls" ∈ tables ∧ "visits" ∈ tables ∧ "downloads" ∈ tables then .chromium
  else if "moz_places" ∈ tables ∧ "moz_historyvisits" ∈ tables then .gecko
  else if "history_items" ∈ tables ∧ "history_visits" ∈ tables then .webkit
  else .unknown

/-! ### Concrete fixture databases -/

def emptyDB : DB :=
  { tables := [], urls := [], visits := [], downloads := []
    keyword_search_terms := [], moz_places := [], moz_historyvisits := []
    moz_anno_attributes := [], moz_annos := [], history_items := [] }

def chromeTables : List String := ["urls", "visits", "downloads"]

def urlRow1 : UrlRow :=
  { id := 1, url := some "http://a", title := some "A", visit_count := some 2
    typed_count := some 1, hidden := 1, last_visit_time := 0 }

/-- Chromium database with one URL row whose `hidden` flag is set. -/
def dbChromeHidden : DB := { emptyDB with tables := chromeTables, urls := [urlRow1] }

def visitRow1 : VisitRow :=
  { id := 1, url := 1, visit_time := 0, from_visit := none, transition := 1 }

/-- Chromium database with one visit row. -/
def dbChromeVisit : DB :=
  { emptyDB with tables := chromeTables, urls := [urlRow1], visits := [visitRow1] }

/-- A `last_visit_time` far beyond the representable `datetime` range. -/
def overflowRow : UrlRow := { urlRow1 with last_visit_time := 10 ^ 18 }

def dbOverflow : DB := { emptyDB with tables := chromeTables, urls := [overflowRow] }

def placeRow1 : MozPlaceRow :=
  { id := 1, url := some "http://g", title := some "G", visit_count := some 1
    typed := some 0, hidden := 0, last_visit_date := some 0 }

/-- Gecko visit row whose native `visit_type` is present and zero. -/
def geckoVisitRow0 : MozVisitRow :=
  { id := 1, place_id := 1, from_visit := none, visit_date := 0, visit_type := some 0 }

def dbGeckoT0 : DB :=
  { emptyDB with
    tables := ["moz_places", "moz_historyvisits"],
    moz_places := [placeRow1], moz_historyvisits := [geckoVisitRow0] }

/-- WebKit database (empty row stores). -/
def safariDB : DB := { emptyDB with tables := ["history_items", "history_visits"] }

/-- The history record `dbChromeHidden` produces. -/
def hiddenRecord : HistoryRecord :=
  { last_visit_time := "Never", url := "http://a", title := "A"
    visit_count := 2, typed_count := 1, is_hidden := .jstr "Yes" }

/-- The visit record `dbChromeVisit` produces. -/
def chromeVisitRecord1 : VisitRecord :=
  { visit_time := "Never", url := "http://a", title := "A", transition := "Typed"
    referrer_url := "", referrer_title := "", segment_name := "Chrome History" }

/-! ### Helper lemmas -/

theorem optionMapM_length {f : α → Option β} :
    ∀ {l : List α} {res : List β}, optionMapM f l = some res → res.length = l.length := by
  intro l
  induction l with
  | nil =>
    intro res h
    simp [optionMapM] at h
    simp [← h]
  | cons a l ih =>
    intro res h
    simp only [optionMapM, Option.bind_eq_bind, Option.bind_eq_some, Option.pure_def,
      Option.some.injEq] at h
    obtain ⟨b, _, h⟩ := h
    obtain ⟨bs, hbs, h⟩ := h
    subst h
    simp [ih hbs]

theorem optionMapM_eq_none_of_mem {f : α → Option β} {l : List α} {a : α}
    (ha : a ∈ l) (hfa : f a = none) : optionMapM f l = none := by
  induction l with
  | nil => cases ha
  | cons b l ih =>
    rcases List.mem_cons.mp ha with h | h
    · subst h
      simp [optionMapM, hfa]
    · cases hfb : f b <;> simp [optionMapM, hfb, ih h]

theorem optionMapM_mem {f : α → Option β} :
    ∀ {l : List α} {res : List β}, optionMapM f l = some res →
      ∀ b ∈ res, ∃ a ∈ l, f a = some b := by
  intro l
  induction l with
  | nil =>
    intro res h b hb
    simp [optionMapM] at h
    subst h
    cases hb
  | cons a l ih =>
    intro res h b hb
    simp only [optionMapM, Option.bind_eq_bind, Option.bind_eq_some, Option.pure_def,
      Option.some.injEq] at h
    obtain ⟨b', hb', h⟩ := h
    obtain ⟨bs, hbs, h⟩ := h
    subst h
    rcases List.mem_cons.mp hb with h | h
    · subst h
      exact ⟨a, List.mem_cons_self .., hb'⟩
    · obtain ⟨a', ha', hfa'⟩ := ih hbs b h
      exact ⟨a', List.mem_cons_of_mem _ ha', hfa'⟩

theorem sorted_sortByDesc (key : α → Int) (l : List α) :
    List.Sorted (fun a b => key b ≤ key a) (sortByDesc key l) := by
  haveI : IsTotal α (fun a b => key b ≤ key a) := ⟨fun a b => le_total (key b) (key a)⟩
  haveI : IsTrans α (fun a b => key b ≤ key a) :=
    ⟨fun _ _ _ hab hbc => le_trans hbc hab⟩
  exact List.sorted_insertionSort _ l

theorem mem_sortByDesc {key : α → Int} {l : List α} {x : α} :
    x ∈ sortByDesc key l ↔ x ∈ l := by
  simp [sortByDesc]

theorem length_sortByDesc (key : α → Int) (l : List α) :
    (sortByDesc key l).length = l.length := by
  simp [sortByDesc]

/-- Membership in an extractor's `except`-wrapped output comes from a source
row that mapped successfully. -/
theorem mem_omapM_getD {f : α → Option β} {l : List α} {r : β}
    (hr : r ∈ (optionMapM f l).getD []) : ∃ a ∈ l, f a = some r := by
  cases hm : optionMapM f l with
  | none => rw [hm] at hr; cases hr
  | some res =>
    rw [hm] at hr
    exact optionMapM_mem hm r hr

/-- Length bound for an extractor's `except`-wrapped output. -/
theorem length_omapM_getD_le {f : α → Option β} {l : List α} {n : Nat}
    (h : l.length ≤ n) : ((optionMapM f l).getD []).length ≤ n := by
  cases hm : optionMapM f l with
  | none => simp
  | some res => simpa [optionMapM_length hm] using h

/-- Detecting `"chrome"` needs the chromium triple in the inventory. -/
theorem chrome_tables_of_detect {db : DB}
    (h : detect_browser_type (Artifact.ok db) = "chrome") :
    "urls" ∈ db.tables ∧ "visits" ∈ db.tables ∧ "downloads" ∈ db.tables := by
  simp only [detect_browser_type] at h
  split_ifs at h with h1 h2 h3
  · exact h1
  · exact absurd h (by decide)
  · exact absurd h (by decide)
  · exact absurd h (by decide)

/-- Detecting `"firefox"` needs the gecko pair in the inventory. -/
theorem firefox_tables_of_detect {db : DB}
    (h : detect_browser_type (Artifact.ok db) = "firefox") :
    "moz_places" ∈ db.tables ∧ "moz_historyvisits" ∈ db.tables := by
  simp only [detect_browser_type] at h
  split_ifs at h with h1 h2 h3
  · exact absurd h (by decide)
  · exact h2
  · exact absurd h (by decide)
  · exact absurd h (by decide)

/-- C1: classification enumerates the artifact's table names and returns the
first match in the fixed precedence order chromium (`'chrome'`: all of urls,
visits, downloads) → gecko (`'firefox'`: all of moz_places,
moz_historyvisits) → webkit (`'safari'`: all of history_items,
history_visits) → unknown. -/
theorem detect_follows_spec_precedence (db : DB) :
    detect_browser_type (Artifact.ok db) = (specClassify db.tables).codeTag := by
  simp only [detect_browser_type, specClassify]
  split_ifs <;> rfl

/-- C2: an artifact that cannot be opened or whose table inventory cannot be
listed classifies as `unknown`, and all four extraction operations on it
return empty sequences instead of propagating the failure. -/
theorem corrupt_artifact_degrades :
    detect_browser_type Artifact.corrupt = "unknown" ∧
    get_history_data Artifact.corrupt = [] ∧
    get_downloads_data Artifact.corrupt = [] ∧
    get_visits_data Artifact.corrupt = [] ∧
    get_search_terms_data Artifact.corrupt = [] :=
  ⟨rfl, rfl, rfl, rfl, rfl⟩

/-- C7: raw input `0` yields the sentinel `"Never"` in all three timestamp
converters, never a computed date. -/
theorem converters_zero_is_never :
    chrome_to_timestamp 0 = some "Never" ∧
    webkit_to_timestamp 0 = some "Never" ∧
    firefox_to_timestamp 0 = some "Never" :=
  ⟨rfl, rfl, rfl⟩

/-- C6: chromium transition codes 0–8 map exactly to Link, Typed,
Auto Bookmark, Auto Subframe, Manual Subframe, Generated, Start Page,
Form Submit, Reload; every code outside the table maps to Unknown. -/
theorem chrome_transition_vocabulary :
    transition_types 0 = "Link" ∧ transition_types 1 = "Typed" ∧
    transition_types 2 = "Auto Bookmark" ∧ transition_types 3 = "Auto Subframe" ∧
    transition_types 4 = "Manual Subframe" ∧ transition_types 5 = "Generated" ∧
    transition_types 6 = "Start Page" ∧ transition_types 7 = "Form Submit" ∧
    transition_types 8 = "Reload" ∧
    ∀ code : Int, code < 0 ∨ 8 < code → transition_types code = "Unknown" := by
  refine ⟨rfl, rfl, rfl, rfl, rfl, rfl, rfl, rfl, rfl, ?_⟩
  intro code hc
  unfold transition_types
  split_ifs <;> first | rfl | (exfalso; omega)

/-- Witness for C6 at the concrete out-of-table code 99. -/
theorem chrome_transition_vocabulary_witness :
    transition_types 99 = "Unknown" :=
  chrome_transition_vocabulary.2.2.2.2.2.2.2.2.2 99 (by decide)

/-- C3 counterexample: on out-of-range inputs all three converters fail
(`none`, modelling the raise) instead of returning the sentinel `"Never"`. -/
theorem converters_overflow_counterexample :
    chrome_to_timestamp (10 ^ 18) = none ∧
    webkit_to_timestamp (10 ^ 12) = none ∧
    firefox_to_timestamp (10 ^ 18) = none ∧
    (none : Option String) ≠ some "Never" :=
  ⟨by decide, by decide, by decide, by decide⟩

/-- C3 (corrected): an out-of-range timestamp makes the converter raise; the
operation-level handler catches it, so the whole extraction call returns the
empty sequence — one malformed row does abort the remaining rows of that
call, though nothing propagates to the caller. -/
theorem overflow_aborts_whole_call (db : DB)
    (hbt : detect_browser_type (Artifact.ok db) = "chrome")
    (r : UrlRow) (hr : r ∈ db.urls)
    (hfail : chrome_to_timestamp r.last_visit_time = none) :
    get_history_data (Artifact.ok db) = [] := by
  have htab : "urls" ∈ db.tables := (chrome_tables_of_detect hbt).1
  have hmk : mkChromeHistory r = none := by
    simp [mkChromeHistory, hfail]
  have hrows : r ∈ chromeHistoryRows db := by
    simpa [chromeHistoryRows, mem_sortByDesc] using hr
  have hcore : chromeHistoryCore db = none := by
    simp [chromeHistoryCore, htab, optionMapM_eq_none_of_mem hrows hmk]
  simp [get_history_data, hbt, hcore]

/-- Witness for the corrected C3: a chromium artifact with one overflowing
row yields an empty history extraction. -/
theorem overflow_aborts_whole_call_witness :
    get_history_data (Artifact.ok dbOverflow) = [] :=
  overflow_aborts_whole_call dbOverflow (by decide) overflowRow (by decide) (by decide)

/-- C5: unsupported (record family, browser family) pairs — search terms on
gecko and webkit, downloads and visits on webkit, every record family on
unknown — return an empty sequence, never an error. -/
theorem unsupported_pairs_empty (a : Artifact) :
    (detect_browser_type a = "firefox" → get_search_terms_data a = []) ∧
    (detect_browser_type a = "safari" →
      get_search_terms_data a = [] ∧ get_downloads_data a = [] ∧
      get_visits_data a = []) ∧
    (detect_browser_type a = "unknown" →
      get_history_data a = [] ∧ get_downloads_data a = [] ∧
      get_visits_data a = [] ∧ get_search_terms_data a = []) := by
  cases a with
  | corrupt => exact ⟨fun _ => rfl, fun _ => ⟨rfl, rfl, rfl⟩, fun _ => ⟨rfl, rfl, rfl, rfl⟩⟩
  | ok db =>
    have nfc : (("firefox" : String) = "chrome") = False := eq_false (by decide)
    have nsc : (("safari" : String) = "chrome") = False := eq_false (by decide)
    have nsf : (("safari" : String) = "firefox") = False := eq_false (by decide)
    have nuc : (("unknown" : String) = "chrome") = False := eq_false (by decide)
    have nuf : (("unknown" : String) = "firefox") = False := eq_false (by decide)
    have nus : (("unknown" : String) = "safari") = False := eq_false (by decide)
    refine ⟨fun h => ?_, fun h => ⟨?_, ?_, ?_⟩, fun h => ⟨?_, ?_, ?_, ?_⟩⟩ <;>
      simp [get_search_terms_data, get_downloads_data, get_visits_data,
        get_history_data, h, nfc, nsc, nsf, nuc, nuf, nus]

/-- Witness for C5 on a concrete webkit artifact. -/
theorem unsupported_pairs_empty_witness :
    get_search_terms_data (Artifact.ok safariDB) = [] ∧
    get_downloads_data (Artifact.ok safariDB) = [] ∧
    get_visits_data (Artifact.ok safariDB) = [] :=
  (unsupported_pairs_empty (Artifact.ok safariDB)).2.1 (by decide)

/-- C8 counterexample: a gecko visit row whose native visit type is present
and equal to 0 yields the label `"Unknown"`, not `"Type 0"`. -/
theorem gecko_type_zero_counterexample :
    (get_visits_data (Artifact.ok dbGeckoT0)).map VisitRecord.transition =
      ["Unknown"] ∧
    ("Unknown" : String) ≠ "Type 0" :=
  ⟨by decide, by decide⟩

/-- C8 (corrected): the gecko transition label is `"Type {n}"` for a present
*nonzero* native type `n`; an absent or zero native type yields `"Unknown"`
(the source tests Python truthiness, not presence), and every extracted
gecko visit record carries exactly this label of its row's native type. -/
theorem gecko_transition_synthesized (n : Int) (hn : n ≠ 0) :
    firefoxTransitionLabel (some n) = "Type " ++ toString n ∧
    firefoxTransitionLabel (some 0) = "Unknown" ∧
    firefoxTransitionLabel none = "Unknown" ∧
    (∀ db p rec, mkFirefoxVisit db p = some rec →
      rec.transition = firefoxTransitionLabel p.1.visit_type) := by
  refine ⟨?_, rfl, rfl, ?_⟩
  · simp [firefoxTransitionLabel, intTruthy, hn]
  · intro db p rec h
    simp only [mkFirefoxVisit, Option.bind_eq_bind, Option.bind_eq_some,
      Option.pure_def, Option.some.injEq] at h
    obtain ⟨ts, _, h⟩ := h
    subst h
    rfl

/-- Witness for the corrected C8 at the nonzero native type 3. -/
theorem gecko_transition_synthesized_witness :
    firefoxTransitionLabel (some 3) = "Type " ++ toString (3 : Int) ∧
    firefoxTransitionLabel (some 0) = "Unknown" ∧
    firefoxTransitionLabel none = "Unknown" ∧
    (∀ db p rec, mkFirefoxVisit db p = some rec →
      rec.transition = firefoxTransitionLabel p.1.visit_type) :=
  gecko_transition_synthesized 3 (by decide)

theorem mkChromeHistory_hidden_flag {row : UrlRow} {r : HistoryRecord}
    (h : mkChromeHistory row = some r) :
    r.is_hidden = JValue.jstr "Yes" ∨ r.is_hidden = JValue.jstr "No" := by
  simp only [mkChromeHistory, Option.bind_eq_bind, Option.bind_eq_some,
    Option.pure_def, Option.some.injEq] at h
  obtain ⟨ts, _, h⟩ := h
  subst h
  cases hh : intTruthy row.hidden
  · right; simp [hh]
  · left; simp [hh]

theorem mkFirefoxHistory_hidden_flag {row : MozPlaceRow} {r : HistoryRecord}
    (h : mkFirefoxHistory row = some r) :
    r.is_hidden = JValue.jstr "Yes" ∨ r.is_hidden = JValue.jstr "No" := by
  simp only [mkFirefoxHistory, Option.bind_eq_bind, Option.bind_eq_some,
    Option.pure_def, Option.some.injEq] at h
  obtain ⟨ts, _, h⟩ := h
  subst h
  cases hh : intTruthy row.hidden
  · right; simp [hh]
  · left; simp [hh]

theorem mkSafariHistory_hidden_flag {row : HistoryItemRow} {r : HistoryRecord}
    (h : mkSafariHistory row = some r) :
    r.is_hidden = JValue.jstr "Yes" ∨ r.is_hidden = JValue.jstr "No" := by
  simp only [mkSafariHistory, Option.bind_eq_bind, Option.bind_eq_some,
    Option.pure_def, Option.some.injEq] at h
  obtain ⟨ts, _, h⟩ := h
  subst h
  right; rfl

/-- C9 counterexample: `is_hidden` is the string `'Yes'`/`'No'`, not a
boolean: a chromium row with the hidden flag set produces the dict value
`'Yes'`, which is not a boolean value. -/
theorem is_hidden_not_boolean_counterexample :
    (get_history_data (Artifact.ok dbChromeHidden)).map HistoryRecord.is_hidden =
      [JValue.jstr "Yes"] ∧
    JValue.isBool (JValue.jstr "Yes") = false :=
  ⟨by decide, rfl⟩

/-- C9 (corrected): every history record's `is_hidden`, for every browser
family, is one of the two strings `'Yes'` and `'No'` (a two-valued string
flag, not a boolean). -/
theorem is_hidden_two_valued_string (a : Artifact) (r : HistoryRecord)
    (hr : r ∈ get_history_data a) :
    r.is_hidden = JValue.jstr "Yes" ∨ r.is_hidden = JValue.jstr "No" := by
  cases a with
  | corrupt => cases hr
  | ok db =>
    simp only [get_history_data] at hr
    split_ifs at hr with hb1 hb2 hb3
    · simp only [chromeHistoryCore] at hr
      split_ifs at hr with hg
      · obtain ⟨row, _, hmk⟩ := mem_omapM_getD hr
        exact mkChromeHistory_hidden_flag hmk
      · simp at hr
    · simp only [firefoxHistoryCore] at hr
      split_ifs at hr with hg
      · obtain ⟨row, _, hmk⟩ := mem_omapM_getD hr
        exact mkFirefoxHistory_hidden_flag hmk
      · simp at hr
    · simp only [safariHistoryCore] at hr
      split_ifs at hr with hg
      · obtain ⟨row, _, hmk⟩ := mem_omapM_getD hr
        exact mkSafariHistory_hidden_flag hmk
      · simp at hr
    · simp at hr

/-- Witness for the corrected C9 at the concrete hidden chromium row. -/
theorem is_hidden_two_valued_string_witness :
    hiddenRecord.is_hidden = JValue.jstr "Yes" ∨
    hiddenRecord.is_hidden = JValue.jstr "No" :=
  is_hidden_two_valued_string (Artifact.ok dbChromeHidden) hiddenRecord (by decide)

/-- C10: a visit record's `segment_name` is a constant of the detected
family — `'Chrome History'` for chromium, `'Firefox History'` for gecko —
and records exist only for those two families. -/
theorem segment_name_family_constant (a : Artifact) (r : VisitRecord)
    (hr : r ∈ get_visits_data a) :
    (detect_browser_type a = "chrome" ∧ r.segment_name = "Chrome History") ∨
    (detect_browser_type a = "firefox" ∧ r.segment_name = "Firefox History") := by
  cases a with
  | corrupt => cases hr
  | ok db =>
    simp only [get_visits_data] at hr
    split_ifs at hr with hb1 hb2
    · left
      refine ⟨hb1, ?_⟩
      simp only [chromeVisitsCore] at hr
      split_ifs at hr with hg
      · obtain ⟨p, _, hmk⟩ := mem_omapM_getD hr
        simp only [mkChromeVisit, Option.bind_eq_bind, Option.bind_eq_some,
          Option.pure_def, Option.some.injEq] at hmk
        obtain ⟨ts, _, hmk⟩ := hmk
        subst hmk
        rfl
      · simp at hr
    · right
      refine ⟨hb2, ?_⟩
      simp only [firefoxVisitsCore] at hr
      split_ifs at hr with hg
      · obtain ⟨p, _, hmk⟩ := mem_omapM_getD hr
        simp only [mkFirefoxVisit, Option.bind_eq_bind, Option.bind_eq_some,
          Option.pure_def, Option.some.injEq] at hmk
        obtain ⟨ts, _, hmk⟩ := hmk
        subst hmk
        rfl
      · simp at hr
    · simp at hr

/-- Witness for C10 at the concrete chromium visit fixture. -/
theorem segment_name_family_constant_witness :
    (detect_browser_type (Artifact.ok dbChromeVisit) = "chrome" ∧
      chromeVisitRecord1.segment_name = "Chrome History") ∨
    (detect_browser_type (Artifact.ok dbChromeVisit) = "firefox" ∧
      chromeVisitRecord1.segment_name = "Firefox History") :=
  segment_name_family_constant (Artifact.ok dbChromeVisit) chromeVisitRecord1
    (by decide)

/-- C4: visits extraction returns at most 1000 records for every artifact
and family; the selection the query produces (`ORDER BY ... DESC LIMIT
1000`, cap applied in the query) is sorted newest-first by the family's
native visit timestamp, and the output is exactly the row-mapping of that
selection for the chromium and gecko families. -/
theorem visits_capped_and_newest_first (a : Artifact) :
    (get_visits_data a).length ≤ 1000 ∧
    (∀ db, a = Artifact.ok db →
      List.Sorted (fun p q : VisitRow × UrlRow =>
        q.1.visit_time ≤ p.1.visit_time) (chromeVisitsSelected db) ∧
      List.Sorted (fun p q : MozVisitRow × MozPlaceRow =>
        q.1.visit_date ≤ p.1.visit_date) (firefoxVisitsSelected db) ∧
      (detect_browser_type a = "chrome" →
        get_visits_data a =
          (optionMapM (mkChromeVisit db) (chromeVisitsSelected db)).getD []) ∧
      (detect_browser_type a = "firefox" →
        get_visits_data a =
          (optionMapM (mkFirefoxVisit db) (firefoxVisitsSelected db)).getD [])) := by
  constructor
  · cases a with
    | corrupt => simp [get_visits_data]
    | ok db =>
      simp only [get_visits_data]
      split_ifs with hb1 hb2
      · simp only [chromeVisitsCore]
        split_ifs with hg
        · refine length_omapM_getD_le ?_
          simp [chromeVisitsSelected, List.length_take]
        · simp
      · simp only [firefoxVisitsCore]
        split_ifs with hg
        · refine length_omapM_getD_le ?_
          simp [firefoxVisitsSelected, List.length_take]
        · simp
      · simp
  · rintro db rfl
    refine ⟨?_, ?_, ?_, ?_⟩
    · exact List.Pairwise.sublist (List.take_sublist _ _)
        (sorted_sortByDesc (fun p : VisitRow × UrlRow => p.1.visit_time)
          (chromeVisitsJoined db))
    · exact List.Pairwise.sublist (List.take_sublist _ _)
        (sorted_sortByDesc (fun p : MozVisitRow × MozPlaceRow => p.1.visit_date)
          (firefoxVisitsJoined db))
    · intro hbt
      have htab := chrome_tables_of_detect hbt
      simp [get_visits_data, hbt, chromeVisitsCore, htab.2.1, htab.1]
    · intro hbt
      have htab := firefox_tables_of_detect hbt
      have nfc : (("firefox" : String) = "chrome") = False := eq_false (by decide)
      simp [get_visits_data, hbt, firefoxVisitsCore, htab.1, htab.2, nfc]

/-- Witness for C4 at the concrete chromium visit fixture. -/
theorem visits_capped_and_newest_first_witness :
    (get_visits_data (Artifact.ok dbChromeVisit)).length ≤ 1000 ∧
    get_visits_data (Artifact.ok dbChromeVisit) =
      (optionMapM (mkChromeVisit dbChromeVisit)
        (chromeVisitsSelected dbChromeVisit)).getD [] :=
  ⟨(visits_capped_and_newest_first (Artifact.ok dbChromeVisit)).1,
    ((visits_capped_and_newest_first (Artifact.ok dbChromeVisit)).2 dbChromeVisit
      rfl).2.2.1 (by decide)⟩

